import Mathlib

/-!
Shallow embedding of the gnet reactor core (teamgram/gnet): the ConnId codec,
the cross-thread Engine handle (AsyncWrite / Trigger) and the closures it
enqueues, the engine start/stop orchestration, and the three event-loop
polling entry functions (run / orbit / rotate).

Machine integers are modelled as Nat; a Go int64 bit pattern is modelled as
the Nat below 2^64 holding the same 64 bits (the decode in Engine.AsyncWrite
only ever masks bit fields out of that pattern, and an arithmetic right shift
followed by a 16-bit mask extracts the same bits as a logical right shift
followed by the same mask, so the Nat model agrees with the Go semantics on
every field the code reads).  External effects (syscalls, the kernel poller,
goroutines) are modelled as explicit inputs or as events recorded in result
structures.
-/

namespace Gnet

/-- Error values of pkg/errors used by the embedded code: the shutdown
sentinel, the empty-handle error, the accept failure, and a catch-all for
any other error a syscall or poller may produce. -/
inductive Err
  | engineShutdown
  | emptyEngine
  | acceptSocket
  | other (code : Nat)
deriving DecidableEq

/-- Connection state visible to the embedded code: the 16-bit generation
id, the opened flag, and the trace of byte strings written via c.write
(bytes are modelled as Nat). -/
structure Conn where
  id : Nat
  opened : Bool
  written : List (List Nat)
deriving DecidableEq

/-- Conn.write: append one outbound byte string to the connection, as done
by the c.write(data) call inside the AsyncWrite closure. -/
def Conn.write (c : Conn) (data : List Nat) : Conn :=
  { c with written := c.written ++ [data] }

/-- Defunctionalized closures enqueued through poller.Trigger by
Engine.AsyncWrite and Engine.Trigger: the write closure carries the decoded
generation id, fd and payload; the callback closure carries the decoded id,
fd and an identifier standing for the user callback. -/
inductive Task
  | asyncWrite (id fd : Nat) (data : List Nat)
  | callback (id fd cbId : Nat)
deriving DecidableEq

/-- One event loop: its connections map keyed by fd, the fds of the
listeners it owns (reuseport mode; empty for a reactor-mode worker), and its
pending trigger queue. -/
structure eventloop where
  connections : List (Nat × Conn)
  listenerFds : List Nat
  queue : List Task
deriving DecidableEq

/-- Modelled from the spec: el.connections.getConn(fd) (the connMatrix
lookup, whose source is not under src/) returns the connection stored under
key fd, or nil when the fd is absent; the connections map is keyed by fd
(spec section 3, Connection). -/
def eventloop.getConn (el : eventloop) (fd : Nat) : Option Conn :=
  (el.connections.find? (fun p => p.1 == fd)).map (fun p => p.2)

/-- Store an updated connection back under its fd key (the in-place mutation
performed through the c pointer in Go). -/
def eventloop.setConn (el : eventloop) (fd : Nat) (c : Conn) : eventloop :=
  { el with connections := el.connections.map (fun p => if p.1 == fd then (p.1, c) else p) }

/-! ## ConnId codec

Decode is taken from src/unnamed/part_000 lines 20-22 (Engine.AsyncWrite):
elidx := int(connId >> 48 & 0xffff); id := uint16(connId >> 32 & 0xffff);
fd := int(connId & 0xffffffff).  connId is the 64-bit pattern as a Nat. -/

/-- Decode the event-loop index: bits 63:48 of the ConnId. -/
def decodeElidx (connId : Nat) : Nat := connId >>> 48 &&& 0xffff

/-- Decode the generation id: bits 47:32 of the ConnId. -/
def decodeId (connId : Nat) : Nat := connId >>> 32 &&& 0xffff

/-- Decode the file descriptor: bits 31:0 of the ConnId. -/
def decodeFd (connId : Nat) : Nat := connId &&& 0xffffffff

/-- Modelled from the spec: the ConnId wire format (spec section 6), packed
as (loopIdx<<48) | (id<<32) | (uint32(fd)); the packing site is not under
src/, only the decode is. -/
def packConnId (loopIdx id fd : Nat) : Nat :=
  (loopIdx <<< 48) ||| (id <<< 32) ||| fd

theorem packConnId_eq_add (l i f : Nat) (hi : i < 2 ^ 16) (hf : f < 2 ^ 32) :
    packConnId l i f = 2 ^ 48 * l + 2 ^ 32 * i + f := by
  unfold packConnId
  rw [Nat.shiftLeft_eq, Nat.shiftLeft_eq, Nat.mul_comm l, Nat.mul_comm i]
  have h1 : (2 ^ 32 * i : Nat) < 2 ^ 48 := by omega
  rw [← Nat.mul_add_lt_is_or h1 l]
  have h2 : (2 ^ 48 * l + 2 ^ 32 * i : Nat) = 2 ^ 32 * (2 ^ 16 * l + i) := by ring
  rw [h2, ← Nat.mul_add_lt_is_or hf, ← h2]

theorem decodeElidx_eq_mod (x : Nat) : decodeElidx x = x / 2 ^ 48 % 2 ^ 16 := by
  unfold decodeElidx
  rw [Nat.shiftRight_eq_div_pow, show (0xffff : Nat) = 2 ^ 16 - 1 by norm_num,
    Nat.and_pow_two_sub_one_eq_mod]

theorem decodeId_eq_mod (x : Nat) : decodeId x = x / 2 ^ 32 % 2 ^ 16 := by
  unfold decodeId
  rw [Nat.shiftRight_eq_div_pow, show (0xffff : Nat) = 2 ^ 16 - 1 by norm_num,
    Nat.and_pow_two_sub_one_eq_mod]

theorem decodeFd_eq_mod (x : Nat) : decodeFd x = x % 2 ^ 32 := by
  unfold decodeFd
  rw [show (0xffffffff : Nat) = 2 ^ 32 - 1 by norm_num, Nat.and_pow_two_sub_one_eq_mod]

/-- C2: round-trip of the ConnId codec — for every loopIdx and id in
[0, 2^16) and every non-negative fd that fits in 32 bits, decoding the
packed value (loopIdx<<48) | (id<<32) | fd with the bit-field decode used by
AsyncWrite/Trigger yields back exactly (loopIdx, id, fd). -/
theorem connId_roundTrip (loopIdx id fd : Nat)
    (hl : loopIdx < 2 ^ 16) (hi : id < 2 ^ 16) (hf : fd < 2 ^ 32) :
    decodeElidx (packConnId loopIdx id fd) = loopIdx
  ∧ decodeId (packConnId loopIdx id fd) = id
  ∧ decodeFd (packConnId loopIdx id fd) = fd := by
  rw [decodeElidx_eq_mod, decodeId_eq_mod, decodeFd_eq_mod,
    packConnId_eq_add loopIdx id fd hi hf]
  refine ⟨?_, ?_, ?_⟩ <;> omega

/-- Witness for C2 at loopIdx = 3, id = 5, fd = 7. -/
theorem connId_roundTrip_witness :
    ((3 : Nat) < 2 ^ 16 ∧ (5 : Nat) < 2 ^ 16 ∧ (7 : Nat) < 2 ^ 32)
  ∧ (decodeElidx (packConnId 3 5 7) = 3
      ∧ decodeId (packConnId 3 5 7) = 5
      ∧ decodeFd (packConnId 3 5 7) = 7) :=
  ⟨by norm_num, connId_roundTrip 3 5 7 (by norm_num) (by norm_num) (by norm_num)⟩

/-! ## The closures enqueued by AsyncWrite / Trigger

src/unnamed/part_000 lines 26-34 (AsyncWrite closure) and lines 60-67
(Trigger closure).  A closure runs later on the owning loop's thread against
that loop's state; runTask gives its semantics: the resulting loop state,
the error the closure returns, and the user callback it invoked (if any). -/

/-- Result of running one enqueued closure on a loop. -/
structure TaskResult where
  loop : eventloop
  err : Option Err
  invoked : Option Nat
deriving DecidableEq

/-- Semantics of the enqueued closures, line by line from
src/unnamed/part_000: the write closure is
if c := el.connections.getConn(fd); c != nil && c.id == id
  { if !c.opened { return nil }; c.write(data) }; return nil
and the callback closure is
if c := el.connections.getConn(fd); c != nil && c.id == id
  { if c.opened { cb(c) } }; return nil. -/
def runTask (el : eventloop) : Task → TaskResult
  | Task.asyncWrite id fd data =>
    match el.getConn fd with
    | some c =>
      if c.id = id then
        if c.opened = false then ⟨el, none, none⟩
        else ⟨el.setConn fd (c.write data), none, none⟩
      else ⟨el, none, none⟩
    | none => ⟨el, none, none⟩
  | Task.callback id fd cbId =>
    match el.getConn fd with
    | some c =>
      if c.id = id then
        if c.opened then ⟨el, none, some cbId⟩ else ⟨el, none, none⟩
      else ⟨el, none, none⟩
    | none => ⟨el, none, none⟩

/-- C1: the closure enqueued by AsyncWrite (and by Trigger) writes (or
invokes the callback) only when a connection with the decoded fd exists in
the loop's connections map, its generation id equals the decoded 16-bit id,
and its opened flag is true; in every other case (fd absent, id mismatch, or
not opened) the closure returns nil and leaves the loop state unchanged —
so a ConnId recorded before OnClose is a silent no-op even if the fd has
been reused by a new connection with a different id. -/
theorem trigger_closure_guard (el : eventloop) (connId : Nat)
    (data : List Nat) (cbId : Nat) :
    ((∀ c, el.getConn (decodeFd connId) = some c →
        c.id ≠ decodeId connId ∨ c.opened = false) →
      runTask el (Task.asyncWrite (decodeId connId) (decodeFd connId) data)
          = ⟨el, none, none⟩
      ∧ runTask el (Task.callback (decodeId connId) (decodeFd connId) cbId)
          = ⟨el, none, none⟩)
  ∧ (∀ c, el.getConn (decodeFd connId) = some c → c.id = decodeId connId →
        c.opened = true →
      runTask el (Task.asyncWrite (decodeId connId) (decodeFd connId) data)
          = ⟨el.setConn (decodeFd connId) (c.write data), none, none⟩
      ∧ runTask el (Task.callback (decodeId connId) (decodeFd connId) cbId)
          = ⟨el, none, some cbId⟩) := by
  constructor
  · intro h
    cases hg : el.getConn (decodeFd connId) with
    | none => simp [runTask, hg]
    | some c =>
      rcases h c hg with hid | hop
      · simp [runTask, hg, hid]
      · by_cases hid : c.id = decodeId connId
        · simp [runTask, hg, hid, hop]
        · simp [runTask, hg, hid]
  · intro c hg hid hop
    simp [runTask, hg, hid, hop]

/-- Connection at fd 3 with generation id 7, used by the C1 witness. -/
def el₀ : eventloop := ⟨[(3, ⟨7, true, []⟩)], [], []⟩

/-- ConnId naming loop 0, generation id 9, fd 3 — a stale id for el₀, whose
connection at fd 3 carries generation id 7 (the fd-reused-after-close
scenario). -/
def connId₀ : Nat := packConnId 0 9 3

/-- Witness for C1: on el₀ the stale closure pair is a silent no-op. -/
theorem trigger_closure_guard_witness :
    (∀ c, el₀.getConn (decodeFd connId₀) = some c →
        c.id ≠ decodeId connId₀ ∨ c.opened = false)
  ∧ (runTask el₀ (Task.asyncWrite (decodeId connId₀) (decodeFd connId₀) [1, 2])
        = ⟨el₀, none, none⟩
      ∧ runTask el₀ (Task.callback (decodeId connId₀) (decodeFd connId₀) 5)
        = ⟨el₀, none, none⟩) := by
  have h : ∀ c, el₀.getConn (decodeFd connId₀) = some c →
      c.id ≠ decodeId connId₀ ∨ c.opened = false := by
    intro c hc
    rw [show el₀.getConn (decodeFd connId₀) = some ⟨7, true, []⟩ from by decide] at hc
    cases hc
    exact Or.inl (by decide)
  exact ⟨h, (trigger_closure_guard el₀ connId₀ [1, 2] 5).1 h⟩

/-! ## The Engine handle (src/unnamed/part_000) -/

/-- Engine core state: the load balancer's ordered list of event loops
(eng.eventLoops), iterated with dense indices.  Fields of the Go engine
struct not read by the embedded operations are omitted. -/
structure engineCore where
  eventLoops : List eventloop
deriving DecidableEq

/-- The externally visible Engine handle: carries an optional pointer to the
engine core (nil for a zero-valued handle). -/
structure Engine where
  eng : Option engineCore
deriving DecidableEq

/-- Append one closure to a loop's trigger queue (poller.Trigger enqueue). -/
def enqueue (el : eventloop) (t : Task) : eventloop :=
  { el with queue := el.queue ++ [t] }

/-- The iterate callback of AsyncWrite/Trigger: visit loops in index order;
at the loop whose index i equals elidx, enqueue the closure through
el.poller.Trigger and stop (return false); otherwise continue. -/
def iterateTrigger (loops : List eventloop) (i elidx : Nat) (t : Task) :
    List eventloop :=
  match loops with
  | [] => []
  | el :: rest =>
    if i = elidx then enqueue el t :: rest
    else el :: iterateTrigger rest (i + 1) elidx t

/-- Engine.AsyncWrite from src/unnamed/part_000 lines 15-41: returns
ErrEmptyEngine on a nil-engine handle; otherwise decodes the ConnId,
enqueues the write closure on the loop with the decoded index, and returns
nil.  The returned Engine carries the updated queues. -/
def Engine.AsyncWrite (e : Engine) (connId : Nat) (data : List Nat) :
    Option Err × Engine :=
  match e.eng with
  | none => (some Err.emptyEngine, e)
  | some eng =>
    let loops := iterateTrigger eng.eventLoops 0 (decodeElidx connId)
      (Task.asyncWrite (decodeId connId) (decodeFd connId) data)
    (none, { eng := some { eng with eventLoops := loops } })

/-- Engine.Trigger from src/unnamed/part_000 lines 44-72: silently returns
on a nil-engine handle or a nil callback; otherwise decodes the ConnId and
enqueues the callback closure on the loop with the decoded index.  The user
callback is identified by a Nat; cb = none models a nil callback. -/
def Engine.Trigger (e : Engine) (connId : Nat) (cb : Option Nat) : Engine :=
  match e.eng with
  | none => e
  | some eng =>
    match cb with
    | none => e
    | some cbId =>
      let loops := iterateTrigger eng.eventLoops 0 (decodeElidx connId)
        (Task.callback (decodeId connId) (decodeFd connId) cbId)
      { eng := some { eng with eventLoops := loops } }

/-- C5: Engine.AsyncWrite returns the EmptyEngine error if and only if the
handle's engine pointer is nil; on every other input (including a loop index
matching no loop, a missing connection, or a stale generation id) it returns
nil — a stale drop is not an error.  Engine.Trigger returns without effect
on a nil-engine handle or a nil callback. -/
theorem asyncWrite_err_iff_emptyEngine (e : Engine) (connId : Nat)
    (data : List Nat) (cb : Option Nat) :
    ((Engine.AsyncWrite e connId data).1 = some Err.emptyEngine ↔ e.eng = none)
  ∧ (e.eng ≠ none → (Engine.AsyncWrite e connId data).1 = none)
  ∧ (e.eng = none → Engine.Trigger e connId cb = e)
  ∧ (cb = none → Engine.Trigger e connId cb = e) := by
  cases he : e.eng with
  | none =>
    refine ⟨by simp [Engine.AsyncWrite, he], by simp [he], ?_, ?_⟩
    · intro
      simp [Engine.Trigger, he]
    · intro hcb
      simp [Engine.Trigger, he]
  | some eng =>
    refine ⟨by simp [Engine.AsyncWrite, he], by simp [Engine.AsyncWrite, he], ?_, ?_⟩
    · intro h
      simp [he] at h
    · intro hcb
      simp [Engine.Trigger, he, hcb]

/-- Witness for C5 on the zero-valued handle and a nil callback. -/
theorem asyncWrite_err_iff_emptyEngine_witness :
    (((Engine.AsyncWrite ⟨none⟩ 0 []).1 = some Err.emptyEngine
        ↔ (⟨none⟩ : Engine).eng = none)
      ∧ ((⟨none⟩ : Engine).eng ≠ none → (Engine.AsyncWrite ⟨none⟩ 0 []).1 = none)
      ∧ ((⟨none⟩ : Engine).eng = none → Engine.Trigger ⟨none⟩ 0 none = ⟨none⟩)
      ∧ ((none : Option Nat) = none → Engine.Trigger ⟨none⟩ 0 none = ⟨none⟩)) :=
  asyncWrite_err_iff_emptyEngine ⟨none⟩ 0 [] none

/-! ## Engine startup topology (src/engine.go) -/

/-- The two reactor topologies chosen by engine.start. -/
inductive Mode
  | reuseport
  | reactor
deriving DecidableEq

/-- The option fields read by the embedded startup/stop code. -/
structure Options where
  reusePort : Bool
  ticker : Bool
deriving DecidableEq

/-- Observable outcome of engine.activateEventLoops / activateReactors:
the chosen mode, the worker loop indices assigned by lb.register (dense,
in registration order, per spec section 4.3), the idx of the extra main
loop (reactor mode only), whether a go statement spawning the ticker driver
was executed, and the receiver loop it was bound to (none models a nil
striker pointer). -/
structure ActivateResult where
  mode : Mode
  workerIdxs : List Int
  mainLoopIdx : Option Int
  tickerGo : Bool
  tickerReceiver : Option Int
deriving DecidableEq

/-- engine.activateEventLoops, src/engine.go lines 94-141: creates
numEventLoop loops with dense indices; inside the creation loop the line
if el.idx == 0 && eng.opts.Ticker { striker = el } binds the striker to the
loop with idx 0 (so the striker stays nil when the loop never runs or the
Ticker option is off); after starting the loops it unconditionally executes
go striker.ticker(eng.tickerCtx) (line 138). -/
def activateEventLoops (opts : Options) (numEventLoop : Nat) : ActivateResult :=
  { mode := Mode.reuseport
    workerIdxs := (List.range numEventLoop).map Int.ofNat
    mainLoopIdx := none
    tickerGo := true
    tickerReceiver := if 0 < numEventLoop ∧ opts.ticker = true then some 0 else none }

/-- engine.activateReactors, src/engine.go lines 143-192: creates
numEventLoop sub-reactor loops with dense indices plus one main loop with
el.idx = -1; spawns the ticker driver on the main loop only when
eng.opts.Ticker is set (lines 186-189). -/
def activateReactors (opts : Options) (numEventLoop : Nat) : ActivateResult :=
  { mode := Mode.reactor
    workerIdxs := (List.range numEventLoop).map Int.ofNat
    mainLoopIdx := some (-1)
    tickerGo := opts.ticker
    tickerReceiver := if opts.ticker = true then some (-1) else none }

/-- engine.start, src/engine.go lines 194-205: reads the network of one
listener from the map (the Go loop for _, ln := range eng.listeners
{ network = ln.network; break } takes a single arbitrary element of the map
iteration; the embedding fixes that order as the list order, so the head is
taken), then chooses reuseport mode when eng.opts.ReusePort or that network
is udp, and reactor mode otherwise.  A listener is (fd, network). -/
def engineStart (listeners : List (Nat × String)) (opts : Options)
    (numEventLoop : Nat) : ActivateResult :=
  let network : String :=
    match listeners with
    | [] => ""
    | ln :: _ => ln.2
  if opts.reusePort = true ∨ network = "udp" then activateEventLoops opts numEventLoop
  else activateReactors opts numEventLoop

/-- C3 counterexample: with ReusePort off and a listener map holding a tcp
listener first and a udp listener second, engine.start picks reactor mode
even though at least one listener's network is udp — refuting the claim
that reuseport mode is chosen iff ReusePort is set or some listener is
udp. -/
theorem engineStart_udp_any_counterexample :
    ¬ ((engineStart [(3, "tcp"), (4, "udp")] ⟨false, false⟩ 1).mode = Mode.reuseport
        ↔ ((⟨false, false⟩ : Options).reusePort = true
            ∨ ∃ ln ∈ [((3 : Nat), "tcp"), (4, "udp")], ln.2 = "udp")) := by
  decide

/-- C3 (amended): for every option set and non-empty listener map,
engine.start runs reuseport mode (activateEventLoops) iff opts.ReusePort is
true or the network of the first listener in iteration order is udp;
otherwise it runs reactor mode (activateReactors) with an extra main loop
of idx -1. -/
theorem engineStart_mode (opts : Options) (numEventLoop : Nat)
    (ln₀ : Nat × String) (rest : List (Nat × String)) :
    ((engineStart (ln₀ :: rest) opts numEventLoop).mode = Mode.reuseport
      ↔ (opts.reusePort = true ∨ ln₀.2 = "udp"))
  ∧ ((engineStart (ln₀ :: rest) opts numEventLoop).mode = Mode.reactor
      → (engineStart (ln₀ :: rest) opts numEventLoop).mainLoopIdx = some (-1)) := by
  by_cases h : opts.reusePort = true ∨ ln₀.2 = "udp"
  · constructor
    · simp [engineStart, h, activateEventLoops]
    · simp [engineStart, h, activateEventLoops]
  · constructor
    · simp [engineStart, h, activateReactors]
    · simp [engineStart, h, activateReactors]

/-- Witness for the amended C3 at a single udp listener. -/
theorem engineStart_mode_witness :
    ((engineStart [(4, "udp")] ⟨false, false⟩ 1).mode = Mode.reuseport
      ↔ ((⟨false, false⟩ : Options).reusePort = true ∨ ((4 : Nat), "udp").2 = "udp"))
  ∧ ((engineStart [(4, "udp")] ⟨false, false⟩ 1).mode = Mode.reactor
      → (engineStart [(4, "udp")] ⟨false, false⟩ 1).mainLoopIdx = some (-1)) :=
  engineStart_mode ⟨false, false⟩ 1 (4, "udp") []

/-- C4: evaluation of activateEventLoops at Ticker = false and one loop —
the code still executes the go statement spawning the ticker driver
(tickerGo = true) and the striker receiver it is invoked on is nil
(tickerReceiver = none), because go striker.ticker(eng.tickerCtx) at
src/engine.go line 138 is not guarded by eng.opts.Ticker, while the striker
is only assigned under that option.  The claim (and spec step 4, matching
the guarded reactor-mode code at lines 186-189) says the ticker goroutine
is spawned only when Ticker is enabled and a method is never invoked on a
nil striker. -/
theorem activateEventLoops_ticker_disabled_eval :
    (activateEventLoops ⟨true, false⟩ 1).tickerGo = true
  ∧ (activateEventLoops ⟨true, false⟩ 1).tickerReceiver = none := by
  decide

/-! ## Engine shutdown (engine.stop, src/engine.go lines 207-248) -/

/-- The successive externally visible steps of engine.stop, in source
order: wait on the shutdown condition, run OnShutdown, urgent-trigger the
shutdown sentinel on every worker loop, (main loop only) close all
listeners and trigger the main loop, join all polling threads through the
WaitGroup, close the worker pollers, (main loop only) close the main
poller, (ticker only) cancel the ticker, and finally the atomic store
inShutdown = 1. -/
inductive StopStep
  | waitForShutdown
  | onShutdown
  | triggerLoops
  | closeAllListeners
  | triggerMain
  | wgWait
  | closeEventLoops
  | closeMainPoller
  | cancelTicker
  | storeInShutdown
deriving DecidableEq

/-- engine.stop, src/engine.go lines 207-248, as the ordered list of steps
it performs; hasMainLoop models eng.mainLoop != nil. -/
def engineStop (opts : Options) (hasMainLoop : Bool) : List StopStep :=
  [StopStep.waitForShutdown, StopStep.onShutdown, StopStep.triggerLoops]
    ++ (if hasMainLoop then [StopStep.closeAllListeners, StopStep.triggerMain] else [])
    ++ [StopStep.wgWait, StopStep.closeEventLoops]
    ++ (if hasMainLoop then [StopStep.closeMainPoller] else [])
    ++ (if opts.ticker then [StopStep.cancelTicker] else [])
    ++ [StopStep.storeInShutdown]

/-- C7: in engine.stop the atomic store of inShutdown = 1 is the final step
and occurs exactly once, after the WaitGroup join of all polling threads,
after the pollers are closed, and after the ticker is cancelled (when
enabled) — hence isInShutdown observes 1 only after every worker thread has
joined. -/
theorem engineStop_store_last (opts : Options) (hasMainLoop : Bool) :
    (engineStop opts hasMainLoop).getLast? = some StopStep.storeInShutdown
  ∧ (engineStop opts hasMainLoop).count StopStep.storeInShutdown = 1
  ∧ StopStep.wgWait ∈ engineStop opts hasMainLoop
  ∧ StopStep.closeEventLoops ∈ engineStop opts hasMainLoop
  ∧ (opts.ticker = true → StopStep.cancelTicker ∈ engineStop opts hasMainLoop) := by
  obtain ⟨rp, t⟩ := opts
  cases rp <;> cases t <;> cases hasMainLoop <;> decide

/-- Witness for C7 with a main loop and the ticker enabled. -/
theorem engineStop_store_last_witness :
    (engineStop ⟨false, true⟩ true).getLast? = some StopStep.storeInShutdown
  ∧ (engineStop ⟨false, true⟩ true).count StopStep.storeInShutdown = 1
  ∧ StopStep.wgWait ∈ engineStop ⟨false, true⟩ true
  ∧ StopStep.closeEventLoops ∈ engineStop ⟨false, true⟩ true
  ∧ ((⟨false, true⟩ : Options).ticker = true
      → StopStep.cancelTicker ∈ engineStop ⟨false, true⟩ true) :=
  engineStop_store_last ⟨false, true⟩ true

/-! ## Readiness dispatch (src/reactor_epoll_default.go) -/

/-- What the readiness handler of a polling loop does with one ready fd:
hand it to the loop's accept path, dispatch it to the owning connection
(c.processIO), or delete the stale fd from the poller. -/
inductive Dispatch
  | accept
  | processConn
  | pollerDelete
deriving DecidableEq

/-- The Polling closure of eventloop.run, src/reactor_epoll_default.go
lines 81-92: c := el.connections.getConn(fd); if c == nil { if fd is a
listener, el.accept; else poller.Delete(fd) }; else c.processIO. -/
def runHandler (el : eventloop) (fd : Nat) : Dispatch :=
  match el.getConn fd with
  | none => if fd ∈ el.listenerFds then Dispatch.accept else Dispatch.pollerDelete
  | some _ => Dispatch.processConn

/-- The Polling closure of eventloop.orbit, src/reactor_epoll_default.go
lines 53-61: c := el.connections.getConn(fd); if c == nil
{ poller.Delete(fd) }; else c.processIO — the sub-reactor never accepts. -/
def orbitHandler (el : eventloop) (fd : Nat) : Dispatch :=
  match el.getConn fd with
  | none => Dispatch.pollerDelete
  | some _ => Dispatch.processConn

/-- C8: on any loop state in which the ready fd is not simultaneously a
connection key and a listener fd (always true of real fd tables, where an
open listener fd and an open connection fd are distinct), run's handler
sends every registered listener fd to accept, every connection-owned fd to
that connection's processIO, and deletes every fd that has neither from the
poller; orbit's handler never accepts — it dispatches connection-owned fds
to processIO and deletes the rest. -/
theorem readiness_dispatch (el : eventloop) (fd : Nat)
    (hdisj : el.getConn fd = none ∨ fd ∉ el.listenerFds) :
    (fd ∈ el.listenerFds → runHandler el fd = Dispatch.accept)
  ∧ (∀ c, el.getConn fd = some c →
        runHandler el fd = Dispatch.processConn
      ∧ orbitHandler el fd = Dispatch.processConn)
  ∧ (el.getConn fd = none → fd ∉ el.listenerFds →
        runHandler el fd = Dispatch.pollerDelete)
  ∧ (el.getConn fd = none → orbitHandler el fd = Dispatch.pollerDelete)
  ∧ orbitHandler el fd ≠ Dispatch.accept := by
  cases hg : el.getConn fd with
  | none =>
    by_cases hl : fd ∈ el.listenerFds
    · exact ⟨fun _ => by simp [runHandler, hg, hl],
        fun c hc => by simp [hg] at hc,
        fun _ hn => absurd hl hn,
        fun _ => by simp [orbitHandler, hg],
        by simp [orbitHandler, hg]⟩
    · exact ⟨fun hm => absurd hm hl,
        fun c hc => by simp [hg] at hc,
        fun _ _ => by simp [runHandler, hg, hl],
        fun _ => by simp [orbitHandler, hg],
        by simp [orbitHandler, hg]⟩
  | some c =>
    have hl : fd ∉ el.listenerFds := by
      rcases hdisj with h | h
      · rw [hg] at h
        exact absurd h (by simp)
      · exact h
    exact ⟨fun hm => absurd hm hl,
      fun c' _ => ⟨by simp [runHandler, hg], by simp [orbitHandler, hg]⟩,
      fun hn _ => absurd hn (by simp),
      fun hn => absurd hn (by simp),
      by simp [orbitHandler, hg]⟩

/-- Loop state with one open connection at fd 7 and a listener at fd 4,
used by the C8 witness. -/
def el₈ : eventloop := ⟨[(7, ⟨1, true, []⟩)], [4], []⟩

/-- Witness for C8 on el₈ at the listener fd 4. -/
theorem readiness_dispatch_witness :
    (el₈.getConn 4 = none ∨ (4 : Nat) ∉ el₈.listenerFds)
  ∧ (((4 : Nat) ∈ el₈.listenerFds → runHandler el₈ 4 = Dispatch.accept)
      ∧ (∀ c, el₈.getConn 4 = some c →
            runHandler el₈ 4 = Dispatch.processConn
          ∧ orbitHandler el₈ 4 = Dispatch.processConn)
      ∧ (el₈.getConn 4 = none → (4 : Nat) ∉ el₈.listenerFds →
            runHandler el₈ 4 = Dispatch.pollerDelete)
      ∧ (el₈.getConn 4 = none → orbitHandler el₈ 4 = Dispatch.pollerDelete)
      ∧ orbitHandler el₈ 4 ≠ Dispatch.accept) :=
  ⟨Or.inl (by decide), readiness_dispatch el₈ 4 (Or.inl (by decide))⟩

/-! ## Loop exit paths (src/reactor_epoll_default.go) -/

/-- Externally visible events on the way out of a polling loop: the
closeConns sweep over the loop's own connections, and the call to
engine.shutdown with the (filtered) error. -/
inductive ExitEvent
  | closeConns
  | engineShutdown (err : Option Err)
deriving DecidableEq

/-- Outcome of a loop entry function once Polling has returned: the error
the function returns and the ordered events it performs after Polling. -/
structure LoopExit where
  ret : Option Err
  events : List ExitEvent
deriving DecidableEq

/-- The common exit filter, lines 93-98 / 62-67 / 35-40: if
errors.Is(err, ErrEngineShutdown) the error is replaced by nil (the
sentinel closures return ErrEngineShutdown itself, so errors.Is is an
identity test here); any other error is kept (and logged). -/
def sentinelFilter (err : Option Err) : Option Err :=
  if err = some Err.engineShutdown then none else err

/-- eventloop.run exit path, src/reactor_epoll_default.go lines 93-103:
filter the sentinel, el.closeConns(), el.engine.shutdown(err), return
err. -/
def runExit (pollErr : Option Err) : LoopExit :=
  let err := sentinelFilter pollErr
  { ret := err
    events := [ExitEvent.closeConns, ExitEvent.engineShutdown err] }

/-- eventloop.orbit exit path, src/reactor_epoll_default.go lines 62-72:
identical to run's — filter, closeConns, engine.shutdown, return. -/
def orbitExit (pollErr : Option Err) : LoopExit :=
  let err := sentinelFilter pollErr
  { ret := err
    events := [ExitEvent.closeConns, ExitEvent.engineShutdown err] }

/-- eventloop.rotate exit path, src/reactor_epoll_default.go lines 35-44:
filter the sentinel, el.engine.shutdown(err), return err — no closeConns,
the main reactor owns no data connections. -/
def rotateExit (pollErr : Option Err) : LoopExit :=
  let err := sentinelFilter pollErr
  { ret := err
    events := [ExitEvent.engineShutdown err] }

/-- C6: for run, orbit and rotate — when Polling returns an error matching
the EngineShutdown sentinel the function returns nil; when Polling returns
any other non-nil error the function returns it unchanged; and in both
cases the exit funnels through engine.shutdown with the returned error. -/
theorem loop_exit_sentinel (pollErr : Option Err) :
    (pollErr = some Err.engineShutdown →
        (runExit pollErr).ret = none
      ∧ (orbitExit pollErr).ret = none
      ∧ (rotateExit pollErr).ret = none)
  ∧ (∀ e, pollErr = some e → e ≠ Err.engineShutdown →
        (runExit pollErr).ret = some e
      ∧ (orbitExit pollErr).ret = some e
      ∧ (rotateExit pollErr).ret = some e)
  ∧ (ExitEvent.engineShutdown (runExit pollErr).ret ∈ (runExit pollErr).events
      ∧ ExitEvent.engineShutdown (orbitExit pollErr).ret ∈ (orbitExit pollErr).events
      ∧ ExitEvent.engineShutdown (rotateExit pollErr).ret ∈ (rotateExit pollErr).events) := by
  refine ⟨?_, ?_, ?_⟩
  · intro h
    simp [runExit, orbitExit, rotateExit, sentinelFilter, h]
  · intro e he hne
    subst he
    simp [runExit, orbitExit, rotateExit, sentinelFilter, hne]
  · simp [runExit, orbitExit, rotateExit]

/-- Witness for C6 at a non-sentinel polling error. -/
theorem loop_exit_sentinel_witness :
    ((some (Err.other 0) = some Err.engineShutdown →
        (runExit (some (Err.other 0))).ret = none
      ∧ (orbitExit (some (Err.other 0))).ret = none
      ∧ (rotateExit (some (Err.other 0))).ret = none)
    ∧ (∀ e, some (Err.other 0) = some e → e ≠ Err.engineShutdown →
        (runExit (some (Err.other 0))).ret = some e
      ∧ (orbitExit (some (Err.other 0))).ret = some e
      ∧ (rotateExit (some (Err.other 0))).ret = some e)
    ∧ (ExitEvent.engineShutdown (runExit (some (Err.other 0))).ret
          ∈ (runExit (some (Err.other 0))).events
      ∧ ExitEvent.engineShutdown (orbitExit (some (Err.other 0))).ret
          ∈ (orbitExit (some (Err.other 0))).events
      ∧ ExitEvent.engineShutdown (rotateExit (some (Err.other 0))).ret
          ∈ (rotateExit (some (Err.other 0))).events)) :=
  loop_exit_sentinel (some (Err.other 0))

/-- C10: whenever a worker polling loop exits — with the shutdown sentinel
or any other error — run and orbit perform closeConns on the loop's own
connection set immediately before engine.shutdown, so no connection in a
worker loop's map outlives that loop's polling thread; rotate (the main
reactor, which owns no data connections) performs no such connection
cleanup on exit. -/
theorem worker_exit_closes_conns (pollErr : Option Err) :
    (runExit pollErr).events
        = [ExitEvent.closeConns, ExitEvent.engineShutdown (runExit pollErr).ret]
  ∧ (orbitExit pollErr).events
        = [ExitEvent.closeConns, ExitEvent.engineShutdown (orbitExit pollErr).ret]
  ∧ ExitEvent.closeConns ∉ (rotateExit pollErr).events := by
  refine ⟨rfl, rfl, ?_⟩
  simp [rotateExit]

/-- Witness for C10 at a non-sentinel polling error. -/
theorem worker_exit_closes_conns_witness :
    (runExit (some (Err.other 2))).events
        = [ExitEvent.closeConns,
            ExitEvent.engineShutdown (runExit (some (Err.other 2))).ret]
  ∧ (orbitExit (some (Err.other 2))).events
        = [ExitEvent.closeConns,
            ExitEvent.engineShutdown (orbitExit (some (Err.other 2))).ret]
  ∧ ExitEvent.closeConns ∉ (rotateExit (some (Err.other 2))).events :=
  worker_exit_closes_conns (some (Err.other 2))

/-! ## Registration failure on a newly accepted fd (server.accept,
src/engine.go lines 377-410) -/

/-- Outcome of the accept syscall on the listener, as an external input:
EAGAIN, a non-transient failure, or success returning the new fd. -/
inductive AcceptSyscall
  | eagain
  | fail
  | ok (nfd : Nat)
deriving DecidableEq

/-- Observable outcome of server.accept: the error it returns, the fd it
closed with unix.Close (if any), whether it released the freshly created
Conn (c.releaseTCP), and whether the registration closure was successfully
enqueued on the chosen sub-loop. -/
structure AcceptOutcome where
  ret : Option Err
  closedFd : Option Nat
  released : Bool
  registered : Bool
deriving DecidableEq

/-- server.accept, src/engine.go lines 377-410: for the listener whose fd
matches, run unix.Accept; on EAGAIN return nil; on other accept errors
return ErrAcceptSocket; on success set the fd non-blocking (nonblockErr is
that syscall's outcome), then enqueue the registration closure on the
sub-loop chosen by the load balancer via el.poller.UrgentTrigger
(triggerErr is its outcome); when the enqueue fails, unix.Close(nfd) and
c.releaseTCP(), and return nil either way.  A ready fd matching no
listener returns nil. -/
def serverAccept (lns : List Nat) (fd : Nat) (acc : AcceptSyscall)
    (nonblockErr : Option Err) (triggerErr : Option Err) : AcceptOutcome :=
  if fd ∈ lns then
    match acc with
    | AcceptSyscall.eagain => ⟨none, none, false, false⟩
    | AcceptSyscall.fail => ⟨some Err.acceptSocket, none, false, false⟩
    | AcceptSyscall.ok nfd =>
      match nonblockErr with
      | some e => ⟨some e, none, false, false⟩
      | none =>
        match triggerErr with
        | some _ => ⟨none, some nfd, true, false⟩
        | none => ⟨none, none, false, true⟩
  else ⟨none, none, false, false⟩

/-- C9: in the main-reactor accept path, when enqueuing the registration
closure onto the chosen sub-loop fails (UrgentTrigger returns an error),
the newly accepted fd is closed and the freshly created Conn is released,
the connection is not registered, and accept still returns nil so the
accepting loop continues unaffected. -/
theorem accept_register_failure (lns : List Nat) (fd nfd : Nat) (e : Err)
    (hfd : fd ∈ lns) :
    serverAccept lns fd (AcceptSyscall.ok nfd) none (some e)
      = ⟨none, some nfd, true, false⟩ := by
  simp [serverAccept, hfd]

/-- Witness for C9: listener fd 5, accepted fd 9, a failing trigger. -/
theorem accept_register_failure_witness :
    (5 : Nat) ∈ [(5 : Nat)]
  ∧ serverAccept [5] 5 (AcceptSyscall.ok 9) none (some (Err.other 1))
      = ⟨none, some 9, true, false⟩ :=
  ⟨by decide, accept_register_failure [5] 5 9 (Err.other 1) (by decide)⟩

end Gnet
